import Mathlib

/-!
Shallow embedding of the rx52 driver (src/lib.rs): command encoding,
device identification and validation logic.

Machine integers are modelled as `Nat` (for `u8`/`u16`) and `Int` (for
`i16`); where Rust performs an `as u16` cast of a possibly-negative
`i16`, the model takes the value modulo 2^16 (`% 65536` on `Int`,
which is Euclidean and hence non-negative).
The USB transport (`rusb`) is out of scope: `do_vendor_command` is
modelled as the pure act of recording one (index, value) transfer, and
device opening never fails.  An operation's observable behaviour is the
optional error it returns paired with the list of transfers it issued
before returning (validation errors in the source always precede the
first transfer of the operation that raises them).
-/

/-- The physical type of an X52 device (`X52DeviceType` in the source). -/
inductive X52DeviceType where
  | X52Pro
  | X52
deriving DecidableEq, Repr, BEq

/-- The color options for each LED (`X52ColoredLedStatus`). -/
inductive X52ColoredLedStatus where
  | Off
  | Green
  | Red
  | Amber
deriving DecidableEq, Repr

/-- The options for an LED which can only be on or off (`X52OnOffLedStatus`). -/
inductive X52OnOffLedStatus where
  | Off
  | On
deriving DecidableEq, Repr

/-- The colored LEDs on the X52 (`X52ColoredLed`). -/
inductive X52ColoredLed where
  | A
  | B
  | D
  | E
  | T1
  | T3
  | T5
  | PovHat
  | Clutch
deriving DecidableEq, Repr

/-- The on/off LEDs on the X52 (`X52OnOffLed`). -/
inductive X52OnOffLed where
  | Fire
  | Throttle
deriving DecidableEq, Repr

/-- The line of the MFD (`X52MFDLine`). -/
inductive X52MFDLine where
  | Line1
  | Line2
  | Line3
deriving DecidableEq, Repr

/-- The date format for the MFD (`X52DateFormat`). -/
inductive X52DateFormat where
  | DDMMYY
  | MMDDYY
  | YYMMDD
deriving DecidableEq, Repr

/-- Machine readable error IDs (`ErrorId` in the source). -/
inductive ErrorId where
  | NoX52sFound
  | NotAPro
  | DeviceNotX52
  | BusDeviceNotFound
  | MFDLineTooLong
  | MFDNotASCII
  | ClockOffsetTooBig
deriving DecidableEq, Repr

/-- Error used in rx52 (`Error` in the source).  The `source` field of the
Rust struct only ever carries wrapped `rusb` transport errors, which are out
of scope here (the modelled transport is infallible), so it is omitted:
every error constructed by the modelled code has `source: None`. -/
structure Error where
  maybe_id : Option ErrorId
  msg : String
deriving DecidableEq, Repr

/-- `Error::new`: build an error from an id and a message. -/
def Error.new (id : ErrorId) (string : String) : Error :=
  { maybe_id := some id, msg := string }

/-- USB descriptor for a certain model of X52 (`X52Descriptor`). -/
structure X52Descriptor where
  x52_type : X52DeviceType
  vendor : Nat
  product : Nat
  description : String
deriving DecidableEq, Repr

/-- `impl PartialEq for X52Descriptor`: equality compares only `x52_type`. -/
def X52Descriptor.eq (a other : X52Descriptor) : Bool :=
  a.x52_type == other.x52_type

def SAITEK_ID : Nat := 0x06A3

def POSSIBLE_DESCRIPTORS : List X52Descriptor :=
  [ { x52_type := X52DeviceType.X52
    , vendor := SAITEK_ID
    , product := 0x0225
    , description := "X52 Flight Controller" }
  , { x52_type := X52DeviceType.X52
    , vendor := SAITEK_ID
    , product := 0x075C
    , description := "X52 Flight Controller" }
  , { x52_type := X52DeviceType.X52Pro
    , vendor := SAITEK_ID
    , product := 0x0762
    , description := "Saitek X52 Pro Flight Control System" } ]

def X52_VENDOR_REQUEST : Nat := 0x91
def LED_SET_COMMAND : Nat := 0xB8
def LED_SET_BRIGHTNESS_COMMAND : Nat := 0xB2
def MFD_SET_BRIGHTNESS_COMMAND : Nat := 0xB1
def MFD_CLEAR_LINE_COMMAND : Nat := 0x08
def MFD_LINE_SIZE : Nat := 16
def SET_SHIFT_STATUS_COMMAND : Nat := 0xFD
def SET_BLINK_STATUS_COMMAND : Nat := 0xB4
def CLOCK_1_SET_COMMAND : Nat := 0xC0
def CLOCK_2_OFFSET_COMMAND : Nat := 0xC1
def CLOCK_3_OFFSET_COMMAND : Nat := 0xC2
def SET_DAY_MONTH_COMMAND : Nat := 0xC4
def SET_YEAR_COMMAND : Nat := 0xC8

/-- One USB vendor control transfer: the (index, value) pair handed to
`write_control` (direction, request type and request code are fixed). -/
structure Transfer where
  index : Nat
  value : Nat
deriving DecidableEq, Repr

/-- `do_vendor_command`: performs one control transfer.  Modelled as the
pure act of recording the transfer (the transport never fails here). -/
def do_vendor_command (index : Nat) (value : Nat) : List Transfer :=
  [{ index := index, value := value }]

/-- Result of one driver operation: the error it returned (if any) paired
with the transfers it issued before returning. -/
abbrev OpResult : Type := Option Error × List Transfer

/-- The `ErrorId` of an operation's error, if the operation failed with an
rx52-domain error. -/
def result_err (r : OpResult) : Option ErrorId :=
  r.1.bind Error.maybe_id

/-- The transfers issued by an operation. -/
def result_transfers (r : OpResult) : List Transfer :=
  r.2

/-- The state of an `X52Driver`: the wrapped `rusb` device, reduced to the
fields the driver reads (bus number, address, vendor id, product id). -/
structure X52Driver where
  bus : Nat
  address : Nat
  vendor_id : Nat
  product_id : Nat
deriving DecidableEq, Repr

/-- `X52Descriptor::eq_descriptor`: does this catalog entry match the USB
device descriptor's (vendor id, product id)? -/
def X52Descriptor.eq_descriptor (a : X52Descriptor) (vendor product : Nat) : Bool :=
  a.vendor == vendor && a.product == product

/-- Lowercase hex digit of a value below 16, as in Rust's `x` formatting. -/
def hexDigit (n : Nat) : String :=
  match n with
  | 0 => "0" | 1 => "1" | 2 => "2" | 3 => "3"
  | 4 => "4" | 5 => "5" | 6 => "6" | 7 => "7"
  | 8 => "8" | 9 => "9" | 10 => "a" | 11 => "b"
  | 12 => "c" | 13 => "d" | 14 => "e" | _ => "f"

/-- Rust format specifier `:04x` applied to a `u16` value. -/
def hex4 (n : Nat) : String :=
  hexDigit (n / 4096 % 16) ++ hexDigit (n / 256 % 16)
    ++ hexDigit (n / 16 % 16) ++ hexDigit (n % 16)

/-- Rust format specifier `:03` (zero-pad to width 3) applied to a `u8`. -/
def pad3 (n : Nat) : String :=
  if n < 10 then "00" ++ toString n
  else if n < 100 then "0" ++ toString n
  else toString n

/-- Byte-wise rendering of a byte string, used only inside error messages
(exact for the ASCII strings the driver accepts). -/
def strOfBytes (bs : List Nat) : String :=
  String.mk (bs.map Char.ofNat)

/-- `get_x52_type_from_descriptor`: look the device's (vendor, product) up
in the catalog. -/
def get_x52_type_from_descriptor (vendor product : Nat) :
    Except Error X52DeviceType :=
  match POSSIBLE_DESCRIPTORS.find? (fun x => x.eq_descriptor vendor product) with
  | some x => Except.ok x.x52_type
  | none =>
    Except.error (Error.new ErrorId.DeviceNotX52
      ("The given descriptor ID " ++ hex4 vendor ++ ":" ++ hex4 product
        ++ " is not an X52"))

/-- `X52Driver::x52_type`. -/
def X52Driver.x52_type (driver : X52Driver) : Except Error X52DeviceType :=
  get_x52_type_from_descriptor driver.vendor_id driver.product_id

/-- `X52Driver::get_bus_device`. -/
def X52Driver.get_bus_device (driver : X52Driver) : Nat × Nat :=
  (driver.bus, driver.address)

/-- `ensure_x52_is_pro`: ensure that an X52 is a pro or return an error. -/
def ensure_x52_is_pro (driver : X52Driver) : Except Error Unit :=
  match driver.x52_type with
  | Except.error e => Except.error e
  | Except.ok t =>
    if t = X52DeviceType.X52 then
      Except.error (Error.new ErrorId.NotAPro
        ("The device at Bus " ++ pad3 driver.get_bus_device.1
          ++ " Device " ++ pad3 driver.get_bus_device.2
          ++ " is not an X52 Pro"))
    else
      Except.ok ()

/-- `map_on_off_led_to_value`. -/
def map_on_off_led_to_value (led : X52OnOffLed) : Nat :=
  match led with
  | X52OnOffLed.Fire => 1
  | X52OnOffLed.Throttle => 20

/-- `map_colored_led_to_value`: (red channel selector, green channel selector). -/
def map_colored_led_to_value (led : X52ColoredLed) : Nat × Nat :=
  match led with
  | X52ColoredLed.A => (2, 3)
  | X52ColoredLed.B => (4, 5)
  | X52ColoredLed.D => (6, 7)
  | X52ColoredLed.E => (8, 9)
  | X52ColoredLed.T1 => (10, 11)
  | X52ColoredLed.T3 => (12, 13)
  | X52ColoredLed.T5 => (14, 15)
  | X52ColoredLed.PovHat => (16, 17)
  | X52ColoredLed.Clutch => (18, 19)

/-- `map_on_off_led_status_to_value`. -/
def map_on_off_led_status_to_value (status : X52OnOffLedStatus) : Nat :=
  match status with
  | X52OnOffLedStatus.Off => 0
  | X52OnOffLedStatus.On => 1

/-- `map_colored_led_status_to_value`: (red bit, green bit). -/
def map_colored_led_status_to_value (status : X52ColoredLedStatus) : Nat × Nat :=
  match status with
  | X52ColoredLedStatus.Off => (0, 0)
  | X52ColoredLedStatus.Red => (1, 0)
  | X52ColoredLedStatus.Green => (0, 1)
  | X52ColoredLedStatus.Amber => (1, 1)

/-- `map_mfd_line_to_value`. -/
def map_mfd_line_to_value (line : X52MFDLine) : Nat :=
  match line with
  | X52MFDLine.Line1 => 0xD1
  | X52MFDLine.Line2 => 0xD2
  | X52MFDLine.Line3 => 0xD4

/-- `map_bool_to_value`. -/
def map_bool_to_value (enabled : Bool) : Nat :=
  match enabled with
  | true => 0x51
  | false => 0x50

/-- `write_mfd_line`: writes a (pre-validated, even-length) byte string to
an MFD line, two bytes per transfer, value `(text[1] as u16) << 8 | text[0]
as u16`, recursing on the remainder.  On an odd-length string the source
indexes past the end of the slice and panics; that case is `none`. -/
def write_mfd_line (line : X52MFDLine) (text : List Nat) :
    Option (List Transfer) :=
  match text with
  | [] => some []
  | b0 :: b1 :: rest =>
    (write_mfd_line line rest).map
      (fun ts =>
        do_vendor_command (map_mfd_line_to_value line) ((b1 <<< 8) ||| b0) ++ ts)
  | [_] => none

/-- `X52Driver::toggle_led_on_off`. -/
def X52Driver.toggle_led_on_off (driver : X52Driver) (led : X52OnOffLed)
    (status : X52OnOffLedStatus) : OpResult :=
  match ensure_x52_is_pro driver with
  | Except.error e => (some e, [])
  | Except.ok _ =>
    (none,
      do_vendor_command LED_SET_COMMAND
        ((map_on_off_led_to_value led <<< 8)
          + map_on_off_led_status_to_value status))

/-- `X52Driver::toggle_led_colored`. -/
def X52Driver.toggle_led_colored (driver : X52Driver) (led : X52ColoredLed)
    (status : X52ColoredLedStatus) : OpResult :=
  match ensure_x52_is_pro driver with
  | Except.error e => (some e, [])
  | Except.ok _ =>
    (none,
      do_vendor_command LED_SET_COMMAND
        (((map_colored_led_to_value led).1 <<< 8)
          + (map_colored_led_status_to_value status).1)
      ++ do_vendor_command LED_SET_COMMAND
        (((map_colored_led_to_value led).2 <<< 8)
          + (map_colored_led_status_to_value status).2))

/-- `X52Driver::clear_mfd_line`. -/
def X52Driver.clear_mfd_line (_driver : X52Driver) (line : X52MFDLine) :
    OpResult :=
  (none,
    do_vendor_command
      (MFD_CLEAR_LINE_COMMAND ||| map_mfd_line_to_value line) 0)

/-- Rust `format!` center alignment at the given width, padding with
spaces; when the padding is odd the extra space goes on the right. -/
def format_center (width : Nat) (text : List Nat) : List Nat :=
  if width ≤ text.length then text
  else
    List.replicate ((width - text.length) / 2) 32 ++ text
      ++ List.replicate
        ((width - text.length) - (width - text.length) / 2) 32

/-- `X52Driver::set_mfd_text`.  Validates ASCII first, then length, then
clears the line and writes the center-padded 16-byte string.  The outer
`Option` is `none` exactly when `write_mfd_line` would panic (unreachable
for validated input, as proved below); the display text is modelled as its
UTF-8 byte string, so `is_ascii` is "every byte < 128" and `len` is the
byte length, as in Rust. -/
def X52Driver.set_mfd_text (driver : X52Driver) (line : X52MFDLine)
    (text : List Nat) : Option OpResult :=
  if ¬ (text.all (fun b => b < 128)) then
    some (some (Error.new ErrorId.MFDNotASCII
      ("The text \"" ++ strOfBytes text ++ "\" contains non-ASCII characters")), [])
  else if MFD_LINE_SIZE < text.length then
    some (some (Error.new ErrorId.MFDLineTooLong
      ("The text \"" ++ strOfBytes text ++ "\" is too long to fit on the MFD")), [])
  else
    match write_mfd_line line (format_center 16 text) with
    | some ts =>
      some (none, (driver.clear_mfd_line line).2 ++ ts)
    | none => none

/-- `X52Driver::set_led_brightness`. -/
def X52Driver.set_led_brightness (_driver : X52Driver) (brightness : Nat) :
    OpResult :=
  (none, do_vendor_command LED_SET_BRIGHTNESS_COMMAND brightness)

/-- `X52Driver::set_mfd_brightness`. -/
def X52Driver.set_mfd_brightness (_driver : X52Driver) (brightness : Nat) :
    OpResult :=
  (none, do_vendor_command MFD_SET_BRIGHTNESS_COMMAND brightness)

/-- `X52Driver::set_shift_status`. -/
def X52Driver.set_shift_status (_driver : X52Driver) (enabled : Bool) :
    OpResult :=
  (none, do_vendor_command SET_SHIFT_STATUS_COMMAND (map_bool_to_value enabled))

/-- `X52Driver::set_blink_status`. -/
def X52Driver.set_blink_status (_driver : X52Driver) (enabled : Bool) :
    OpResult :=
  (none, do_vendor_command SET_BLINK_STATUS_COMMAND (map_bool_to_value enabled))

/-- `X52Driver::set_clock_1`.  `hour` and `minute` are `u8` values. -/
def X52Driver.set_clock_1 (_driver : X52Driver) (hour minute : Nat)
    (use_24h : Bool) : OpResult :=
  (none,
    do_vendor_command CLOCK_1_SET_COMMAND
      ((cond use_24h 1 0) <<< 15 ||| ((hour &&& 0x7F) <<< 8) ||| minute))

/-- `X52Driver::set_clock_2_offset`.  `offset` is an `i16`; Rust's
`-offset as u16` is `(-offset) mod 2^16` and `offset as u16` is
`offset mod 2^16`. -/
def X52Driver.set_clock_2_offset (_driver : X52Driver) (offset : Int)
    (use_24h : Bool) : OpResult :=
  if offset < -1440 ∨ offset > 1440 then
    (some (Error.new ErrorId.ClockOffsetTooBig
      ("Clock 2 offset (" ++ toString offset ++ ") too large")), [])
  else
    (none,
      do_vendor_command CLOCK_2_OFFSET_COMMAND
        ((cond use_24h 1 0) <<< 15 |||
          (if offset > 0 then
            (1 <<< 10) ||| ((-offset) % 65536).toNat
          else
            ((offset % 65536)).toNat)))

/-- `X52Driver::set_clock_3_offset`. -/
def X52Driver.set_clock_3_offset (_driver : X52Driver) (offset : Int)
    (use_24h : Bool) : OpResult :=
  if offset < -1440 ∨ offset > 1440 then
    (some (Error.new ErrorId.ClockOffsetTooBig
      ("Clock 3 offset (" ++ toString offset ++ ") too large")), [])
  else
    (none,
      do_vendor_command CLOCK_3_OFFSET_COMMAND
        ((cond use_24h 1 0) <<< 15 |||
          (if offset > 0 then
            (1 <<< 10) ||| ((-offset) % 65536).toNat
          else
            ((offset % 65536)).toNat)))

/-- `X52Driver::set_date`.  `day`, `month` and `year` are `u8` values. -/
def X52Driver.set_date (_driver : X52Driver) (day month year : Nat)
    (format : X52DateFormat) : OpResult :=
  (none,
    do_vendor_command SET_DAY_MONTH_COMMAND
      (match format with
        | X52DateFormat.DDMMYY => (month <<< 8) ||| day
        | X52DateFormat.MMDDYY => (day <<< 8) ||| month
        | X52DateFormat.YYMMDD => (month <<< 8) ||| year)
    ++ do_vendor_command SET_YEAR_COMMAND
      (match format with
        | X52DateFormat.DDMMYY => year
        | X52DateFormat.MMDDYY => year
        | X52DateFormat.YYMMDD => day))

/-- The `ErrorId` of an operation that may also panic (`set_mfd_text`). -/
def opt_result_err (r : Option OpResult) : Option ErrorId :=
  match r with
  | some p => result_err p
  | none => none

/-- The transfers of an operation that may also panic (`set_mfd_text`). -/
def opt_result_transfers (r : Option OpResult) : List Transfer :=
  match r with
  | some p => p.2
  | none => []

/-- A concrete X52 Pro driver state: the device at bus 1 address 2 with the
catalog's Pro (vendor, product) pair. -/
def proDriver : X52Driver :=
  { bus := 1, address := 2, vendor_id := 0x06A3, product_id := 0x0762 }

/-- A concrete base-variant X52 driver state: bus 1 address 2, first base
product id of the catalog. -/
def baseDriver : X52Driver :=
  { bus := 1, address := 2, vendor_id := 0x06A3, product_id := 0x0225 }

/-- Default value used with `List.getD` when indexing the catalog. -/
def defaultDescriptor : X52Descriptor :=
  { x52_type := X52DeviceType.X52, vendor := 0, product := 0, description := "" }

lemma shiftLeft8_lor_eq_add (a b : Nat) (hb : b < 256) :
    (a <<< 8) ||| b = 256 * a + b := by
  have h256 : (256 : Nat) = 2 ^ 8 := by norm_num
  apply Nat.eq_of_testBit_eq
  intro j
  have hb' : b < 2 ^ 8 := h256 ▸ hb
  rw [Nat.testBit_lor, Nat.testBit_shiftLeft, h256,
    Nat.testBit_mul_pow_two_add a hb' j]
  by_cases hj : j < 8
  · have : ¬ (j ≥ 8) := by omega
    simp [hj, this]
  · have hge : j ≥ 8 := by omega
    have hbj : b.testBit j = false :=
      Nat.testBit_lt_two_pow
        (lt_of_lt_of_le hb' (Nat.pow_le_pow_right (by norm_num) hge))
    simp [hj, hge, hbj]

lemma shiftLeft8_lor_mod (a b : Nat) (hb : b < 256) :
    ((a <<< 8) ||| b) % 256 = b := by
  rw [shiftLeft8_lor_eq_add a b hb, Nat.mul_add_mod, Nat.mod_eq_of_lt hb]

lemma shiftLeft8_lor_div (a b : Nat) (hb : b < 256) :
    ((a <<< 8) ||| b) / 256 = a := by
  rw [shiftLeft8_lor_eq_add a b hb, Nat.mul_add_div (by norm_num),
    Nat.div_eq_of_lt hb, Nat.add_zero]

/-- Full characterisation of `write_mfd_line` on an even-length string of
bytes: it succeeds, issues one transfer per pair of bytes (the earlier byte
of each pair in the low half of the value, the later byte shifted into the
high half), and splitting each value back into its two bytes reproduces the
string. -/
theorem write_mfd_line_pairs (line : X52MFDLine) :
    ∀ text : List Nat, text.length % 2 = 0 → (∀ b ∈ text, b < 256) →
    ∃ ts, write_mfd_line line text = some ts ∧
      ts.length = text.length / 2 ∧
      (∀ t ∈ ts, t.index = map_mfd_line_to_value line) ∧
      (∀ i, i < ts.length →
        ts.getD i { index := 0, value := 0 } =
          { index := map_mfd_line_to_value line
          , value := (text.getD (2 * i + 1) 0 <<< 8) ||| text.getD (2 * i) 0 }) ∧
      ts.flatMap (fun t => [t.value % 256, t.value / 256]) = text
  | [], _, _ => ⟨[], rfl, rfl, by simp, by simp, rfl⟩
  | [_], h, _ => by simp at h
  | b0 :: b1 :: rest, h, hb => by
    have h' : rest.length % 2 = 0 := by
      simp only [List.length_cons] at h
      omega
    have hb' : ∀ b ∈ rest, b < 256 := fun b hbm => hb b (by simp [hbm])
    obtain ⟨ts, hts, hlen, hidx, hget, hcat⟩ :=
      write_mfd_line_pairs line rest h' hb'
    have hb0 : b0 < 256 := hb b0 (by simp)
    have hb1 : b1 < 256 := hb b1 (by simp)
    refine ⟨{ index := map_mfd_line_to_value line
            , value := (b1 <<< 8) ||| b0 } :: ts, ?_, ?_, ?_, ?_, ?_⟩
    · simp [write_mfd_line, hts, do_vendor_command]
    · simp [hlen]
      omega
    · intro t ht
      rcases List.mem_cons.mp ht with h1 | h2
      · simp [h1]
      · exact hidx t h2
    · intro i hi
      match i with
      | 0 => simp
      | Nat.succ k =>
        have hk : k < ts.length := by
          simpa using hi
        have := hget k hk
        simpa [List.getD_cons_succ, Nat.mul_succ, Nat.mul_add] using this
    · simp only [List.flatMap_cons, hcat]
      rw [shiftLeft8_lor_mod b1 b0 hb0, shiftLeft8_lor_div b1 b0 hb0]
      rfl

lemma ensure_x52_is_pro_of_pro (driver : X52Driver)
    (h : driver.x52_type = Except.ok X52DeviceType.X52Pro) :
    ensure_x52_is_pro driver = Except.ok () := by
  unfold ensure_x52_is_pro
  rw [h]
  rfl

lemma ensure_x52_is_pro_of_base (driver : X52Driver)
    (h : driver.x52_type = Except.ok X52DeviceType.X52) :
    ensure_x52_is_pro driver =
      Except.error (Error.new ErrorId.NotAPro
        ("The device at Bus " ++ pad3 driver.bus ++ " Device "
          ++ pad3 driver.address ++ " is not an X52 Pro")) := by
  unfold ensure_x52_is_pro
  rw [h]
  rfl

lemma format_center_eq (text : List Nat) (hlen : text.length ≤ 16) :
    format_center 16 text =
      List.replicate ((16 - text.length) / 2) 32 ++ text
        ++ List.replicate
          ((16 - text.length) - (16 - text.length) / 2) 32 := by
  unfold format_center
  by_cases h : 16 ≤ text.length
  · have h16 : text.length = 16 := le_antisymm hlen h
    rw [if_pos h]
    simp [h16]
  · rw [if_neg h]

lemma format_center_length (text : List Nat) (hlen : text.length ≤ 16) :
    (format_center 16 text).length = 16 := by
  rw [format_center_eq text hlen]
  simp
  omega

lemma format_center_bytes_lt (text : List Nat)
    (hascii : ∀ b ∈ text, b < 128) :
    ∀ b ∈ format_center 16 text, b < 256 := by
  intro b hbm
  unfold format_center at hbm
  by_cases h : 16 ≤ text.length
  · rw [if_pos h] at hbm
    exact lt_trans (hascii b hbm) (by norm_num)
  · rw [if_neg h] at hbm
    simp only [List.mem_append, List.mem_replicate] at hbm
    rcases hbm with (h1 | h2) | h3
    · omega
    · exact lt_trans (hascii b h2) (by norm_num)
    · omega

/-- C1 (counterexample): the claim's own scenario fails on the code.
`set_clock_2_offset(90, false)` issues the single transfer value
`0xFFA6 = 65446` — Rust's `1_u16 << 10 | -offset as u16` places the 16-bit
two's complement of `-90`, not the magnitude `90`, in the low bits — which
differs from the claimed `(0<<15) | (1<<10) | 90 = 1114`. -/
theorem set_clock_2_offset_positive_magnitude_refuted :
    (X52Driver.set_clock_2_offset proDriver 90 false).2 =
        [{ index := CLOCK_2_OFFSET_COMMAND, value := 65446 }] ∧
      (65446 : Nat) ≠ (0 <<< 15) ||| ((1 <<< 10) ||| 90) := by
  constructor
  · decide
  · decide

/-- C1 (amended): for every offset `o` with `0 < o ≤ 1440` and every
`use_24h` flag, `set_clock_2_offset` (and `set_clock_3_offset`) issues
exactly one transfer whose 16-bit value equals
`(use_24h<<15) | (1<<10) | ((65536 - o) mod 2^16)` — bit 10 OR'd with the
16-bit two's-complement representation of `-o`, not the magnitude `o`; in
particular `set_clock_2_offset(90, false)` encodes value `0xFFA6 = 65446`.
For every offset `o` with `-1440 ≤ o ≤ 0` the value equals `(use_24h<<15)`
OR'd with the two's-complement 16-bit representation of `o`. -/
theorem set_clock_offset_encoding_amended (driver : X52Driver)
    (offset : Int) (use_24h : Bool) :
    (0 < offset → offset ≤ 1440 →
      driver.set_clock_2_offset offset use_24h =
        (none, [{ index := CLOCK_2_OFFSET_COMMAND
                , value := (cond use_24h 1 0) <<< 15 |||
                    ((1 <<< 10) ||| (65536 - offset.toNat)) }]) ∧
      driver.set_clock_3_offset offset use_24h =
        (none, [{ index := CLOCK_3_OFFSET_COMMAND
                , value := (cond use_24h 1 0) <<< 15 |||
                    ((1 <<< 10) ||| (65536 - offset.toNat)) }])) ∧
    (-1440 ≤ offset → offset ≤ 0 →
      driver.set_clock_2_offset offset use_24h =
        (none, [{ index := CLOCK_2_OFFSET_COMMAND
                , value := (cond use_24h 1 0) <<< 15 |||
                    ((offset % 65536)).toNat }]) ∧
      driver.set_clock_3_offset offset use_24h =
        (none, [{ index := CLOCK_3_OFFSET_COMMAND
                , value := (cond use_24h 1 0) <<< 15 |||
                    ((offset % 65536)).toNat }])) := by
  constructor
  · intro h1 h2
    have hrange : ¬ (offset < -1440 ∨ offset > 1440) := by omega
    have hpos : offset > 0 := h1
    have henc : ((-offset) % 65536).toNat = 65536 - offset.toNat := by
      omega
    constructor
    · unfold X52Driver.set_clock_2_offset
      rw [if_neg hrange, if_pos hpos, henc]
      rfl
    · unfold X52Driver.set_clock_3_offset
      rw [if_neg hrange, if_pos hpos, henc]
      rfl
  · intro h1 h2
    have hrange : ¬ (offset < -1440 ∨ offset > 1440) := by omega
    have hnpos : ¬ (offset > 0) := by omega
    constructor
    · unfold X52Driver.set_clock_2_offset
      rw [if_neg hrange, if_neg hnpos]
      rfl
    · unfold X52Driver.set_clock_3_offset
      rw [if_neg hrange, if_neg hnpos]
      rfl

/-- C1 (witness): the amended encoding evaluated at offsets 90 and -90. -/
theorem set_clock_offset_encoding_amended_witness :
    X52Driver.set_clock_2_offset proDriver 90 false =
        (none, [{ index := CLOCK_2_OFFSET_COMMAND
                , value := (cond false 1 0) <<< 15 |||
                    ((1 <<< 10) ||| (65536 - (90 : Int).toNat)) }]) ∧
      X52Driver.set_clock_3_offset proDriver (-90) true =
        (none, [{ index := CLOCK_3_OFFSET_COMMAND
                , value := (cond true 1 0) <<< 15 |||
                    ((((-90 : Int)) % 65536)).toNat }]) :=
  ⟨((set_clock_offset_encoding_amended proDriver 90 false).1
      (by decide) (by decide)).1,
   ((set_clock_offset_encoding_amended proDriver (-90) true).2
      (by decide) (by decide)).2⟩

/-- C3: for every offset `o` with `|o| ≤ 1440` the clock-2 and clock-3
offset operations succeed and issue exactly one transfer; for `|o| > 1440`
they fail with `ErrorId.ClockOffsetTooBig` and issue no transfer. -/
theorem set_clock_offset_range_check (driver : X52Driver)
    (offset : Int) (use_24h : Bool) :
    (-1440 ≤ offset → offset ≤ 1440 →
      result_err (driver.set_clock_2_offset offset use_24h) = none ∧
      (driver.set_clock_2_offset offset use_24h).2.length = 1 ∧
      result_err (driver.set_clock_3_offset offset use_24h) = none ∧
      (driver.set_clock_3_offset offset use_24h).2.length = 1) ∧
    ((offset < -1440 ∨ 1440 < offset) →
      result_err (driver.set_clock_2_offset offset use_24h) =
        some ErrorId.ClockOffsetTooBig ∧
      (driver.set_clock_2_offset offset use_24h).2 = [] ∧
      result_err (driver.set_clock_3_offset offset use_24h) =
        some ErrorId.ClockOffsetTooBig ∧
      (driver.set_clock_3_offset offset use_24h).2 = []) := by
  constructor
  · intro h1 h2
    have hrange : ¬ (offset < -1440 ∨ offset > 1440) := by omega
    refine ⟨?_, ?_, ?_, ?_⟩
    · unfold X52Driver.set_clock_2_offset
      rw [if_neg hrange]
      rfl
    · unfold X52Driver.set_clock_2_offset
      rw [if_neg hrange]
      rfl
    · unfold X52Driver.set_clock_3_offset
      rw [if_neg hrange]
      rfl
    · unfold X52Driver.set_clock_3_offset
      rw [if_neg hrange]
      rfl
  · intro h
    have hrange : offset < -1440 ∨ offset > 1440 := by omega
    refine ⟨?_, ?_, ?_, ?_⟩
    · unfold X52Driver.set_clock_2_offset
      rw [if_pos hrange]
      rfl
    · unfold X52Driver.set_clock_2_offset
      rw [if_pos hrange]
    · unfold X52Driver.set_clock_3_offset
      rw [if_pos hrange]
      rfl
    · unfold X52Driver.set_clock_3_offset
      rw [if_pos hrange]

/-- C3 (witness): the range check evaluated at offsets 1440 and 1500. -/
theorem set_clock_offset_range_check_witness :
    result_err (X52Driver.set_clock_2_offset proDriver 1440 true) = none ∧
      result_err (X52Driver.set_clock_2_offset proDriver 1500 true) =
        some ErrorId.ClockOffsetTooBig ∧
      (X52Driver.set_clock_2_offset proDriver 1500 true).2 = [] :=
  ⟨((set_clock_offset_range_check proDriver 1440 true).1
      (by decide) (by decide)).1,
   ((set_clock_offset_range_check proDriver 1500 true).2
      (by decide)).1,
   ((set_clock_offset_range_check proDriver 1500 true).2
      (by decide)).2.1⟩

/-- C2 (counterexample): for the byte pair `(1, 2)` — `1` the earlier byte —
the code issues value `(2 << 8) | 1 = 513`, so the earlier byte of the pair
occupies the LOW byte of the value, not the high byte as claimed
(`2 | (1 << 8) = 258`). -/
theorem write_mfd_line_byte_order_refuted :
    write_mfd_line X52MFDLine.Line1 [1, 2] =
        some [{ index := map_mfd_line_to_value X52MFDLine.Line1
              , value := 513 }] ∧
      (513 : Nat) ≠ 2 ||| (1 <<< 8) := by
  constructor
  · decide
  · decide

/-- C2 (amended): in the MFD text-write transfer sequence, each transfer
carries one consecutive pair of bytes of the (even-length) string; for a
pair `(b0, b1)` where `b0` is the earlier byte, the transfer's 16-bit value
equals `b0 | (b1 << 8)`: the SECOND byte of the pair occupies the
high-order byte of the value and the first byte the low-order byte, for
every pair of every valid text write. -/
theorem write_mfd_line_byte_order_amended (line : X52MFDLine)
    (text : List Nat) (heven : text.length % 2 = 0)
    (hbytes : ∀ b ∈ text, b < 256) :
    ∃ ts, write_mfd_line line text = some ts ∧
      ts.length = text.length / 2 ∧
      ∀ i, i < ts.length →
        (ts.getD i { index := 0, value := 0 }).index =
          map_mfd_line_to_value line ∧
        (ts.getD i { index := 0, value := 0 }).value =
          (text.getD (2 * i) 0) ||| ((text.getD (2 * i + 1) 0) <<< 8) ∧
        (ts.getD i { index := 0, value := 0 }).value % 256 =
          text.getD (2 * i) 0 ∧
        (ts.getD i { index := 0, value := 0 }).value / 256 =
          text.getD (2 * i + 1) 0 := by
  obtain ⟨ts, hts, hlen, _, hget, _⟩ :=
    write_mfd_line_pairs line text heven hbytes
  refine ⟨ts, hts, hlen, ?_⟩
  intro i hi
  have h2i : 2 * i < text.length := by omega
  have h2i1 : 2 * i + 1 < text.length := by omega
  have hm0 : text.getD (2 * i) 0 ∈ text := by
    rw [List.getD_eq_getElem text 0 h2i]
    exact List.getElem_mem h2i
  have hm1 : text.getD (2 * i + 1) 0 ∈ text := by
    rw [List.getD_eq_getElem text 0 h2i1]
    exact List.getElem_mem h2i1
  have hb0 : text.getD (2 * i) 0 < 256 := hbytes _ hm0
  have hb1 : text.getD (2 * i + 1) 0 < 256 := hbytes _ hm1
  rw [hget i hi]
  refine ⟨rfl, ?_, ?_, ?_⟩
  · rw [Nat.lor_comm]
  · exact shiftLeft8_lor_mod _ _ hb0
  · exact shiftLeft8_lor_div _ _ hb0

/-- C2 (witness): the amended byte order evaluated on the four-byte string
`[72, 73, 32, 33]`. -/
theorem write_mfd_line_byte_order_amended_witness :
    ∃ ts, write_mfd_line X52MFDLine.Line2 [72, 73, 32, 33] = some ts ∧
      ts.length = ([72, 73, 32, 33] : List Nat).length / 2 ∧
      ∀ i, i < ts.length →
        (ts.getD i { index := 0, value := 0 }).index =
          map_mfd_line_to_value X52MFDLine.Line2 ∧
        (ts.getD i { index := 0, value := 0 }).value =
          (([72, 73, 32, 33] : List Nat).getD (2 * i) 0) |||
            ((([72, 73, 32, 33] : List Nat).getD (2 * i + 1) 0) <<< 8) ∧
        (ts.getD i { index := 0, value := 0 }).value % 256 =
          ([72, 73, 32, 33] : List Nat).getD (2 * i) 0 ∧
        (ts.getD i { index := 0, value := 0 }).value / 256 =
          ([72, 73, 32, 33] : List Nat).getD (2 * i + 1) 0 :=
  write_mfd_line_byte_order_amended X52MFDLine.Line2 [72, 73, 32, 33]
    (by decide) (by decide)

/-- C4: for every ASCII text of at most 16 bytes and every display line,
`set_mfd_text` emits exactly one clear transfer (index = `0x08` OR'd with
the line opcode, value 0) followed by exactly 8 text transfers, and
concatenating the byte pairs (low byte, then high byte) of the 8 text
transfers reproduces the input center-padded with spaces to exactly 16
characters, with the extra space after the text when the padding is odd. -/
theorem set_mfd_text_padding_roundtrip (driver : X52Driver)
    (line : X52MFDLine) (text : List Nat)
    (hascii : ∀ b ∈ text, b < 128) (hlen : text.length ≤ 16) :
    ∃ ts, driver.set_mfd_text line text =
        some (none,
          { index := MFD_CLEAR_LINE_COMMAND ||| map_mfd_line_to_value line
          , value := 0 } :: ts) ∧
      ts.length = 8 ∧
      (∀ t ∈ ts, t.index = map_mfd_line_to_value line) ∧
      ts.flatMap (fun t => [t.value % 256, t.value / 256]) =
        List.replicate ((16 - text.length) / 2) 32 ++ text
          ++ List.replicate
            ((16 - text.length) - (16 - text.length) / 2) 32 := by
  have hall : text.all (fun b => b < 128) = true := by
    rw [List.all_eq_true]
    intro b hb
    simpa using hascii b hb
  have hfmt_len : (format_center 16 text).length = 16 :=
    format_center_length text hlen
  obtain ⟨ts, hts, hlen8, hidx, _, hcat⟩ :=
    write_mfd_line_pairs line (format_center 16 text)
      (by rw [hfmt_len]) (format_center_bytes_lt text hascii)
  refine ⟨ts, ?_, ?_, hidx, ?_⟩
  · unfold X52Driver.set_mfd_text
    rw [if_neg (by simp [hall]), if_neg (by simp [MFD_LINE_SIZE]; omega), hts]
    rfl
  · rw [hlen8, hfmt_len]
  · rw [hcat, format_center_eq text hlen]

/-- C4 (witness): writing "HI" (bytes `[72, 73]`) yields the clear transfer
followed by 8 transfers decoding to 7 spaces, "HI", 7 spaces. -/
theorem set_mfd_text_padding_roundtrip_witness :
    ∃ ts, X52Driver.set_mfd_text proDriver X52MFDLine.Line1 [72, 73] =
        some (none,
          { index := MFD_CLEAR_LINE_COMMAND
              ||| map_mfd_line_to_value X52MFDLine.Line1
          , value := 0 } :: ts) ∧
      ts.length = 8 ∧
      (∀ t ∈ ts, t.index = map_mfd_line_to_value X52MFDLine.Line1) ∧
      ts.flatMap (fun t => [t.value % 256, t.value / 256]) =
        List.replicate 7 32 ++ [72, 73] ++ List.replicate 7 32 :=
  set_mfd_text_padding_roundtrip proDriver X52MFDLine.Line1 [72, 73]
    (by decide) (by decide)

/-- C5 (counterexample): a 17-byte text whose last character is non-ASCII
(UTF-8 bytes `[0xC3, 0x80]`) is rejected with `MFDNotASCII`, not with
`MFDLineTooLong` as the claim requires for every text longer than 16
bytes: the ASCII check runs first. -/
theorem set_mfd_text_error_precedence_refuted :
    (List.replicate 15 97 ++ [195, 128] : List Nat).length = 17 ∧
      opt_result_err (X52Driver.set_mfd_text proDriver X52MFDLine.Line1
        (List.replicate 15 97 ++ [195, 128])) = some ErrorId.MFDNotASCII ∧
      some ErrorId.MFDNotASCII ≠ some ErrorId.MFDLineTooLong := by
  refine ⟨by decide, ?_, by decide⟩
  decide

/-- C5 (amended): for every display text `t` passed to `set_mfd_text`: if
`t` contains a non-ASCII byte it fails with `MFDNotASCII`; otherwise, if
`len(t) > 16` bytes, it fails with `MFDLineTooLong` (the ASCII check takes
precedence when both conditions hold); in either case the error is
returned before any transfer — including the clear transfer — is
attempted. -/
theorem set_mfd_text_validation_amended (driver : X52Driver)
    (line : X52MFDLine) (text : List Nat) :
    (¬ (∀ b ∈ text, b < 128) →
      opt_result_err (driver.set_mfd_text line text) =
        some ErrorId.MFDNotASCII ∧
      opt_result_transfers (driver.set_mfd_text line text) = []) ∧
    ((∀ b ∈ text, b < 128) → 16 < text.length →
      opt_result_err (driver.set_mfd_text line text) =
        some ErrorId.MFDLineTooLong ∧
      opt_result_transfers (driver.set_mfd_text line text) = []) := by
  constructor
  · intro h
    have hall : ¬ (text.all (fun b => b < 128) = true) := by
      rw [List.all_eq_true]
      intro hc
      exact h (fun b hb => by simpa using hc b hb)
    unfold X52Driver.set_mfd_text
    rw [if_pos (by simpa using hall)]
    exact ⟨rfl, rfl⟩
  · intro h hlen
    have hall : text.all (fun b => b < 128) = true := by
      rw [List.all_eq_true]
      intro b hb
      simpa using h b hb
    unfold X52Driver.set_mfd_text
    rw [if_neg (by simp [hall]), if_pos (by simp [MFD_LINE_SIZE]; omega)]
    exact ⟨rfl, rfl⟩

/-- C5 (witness): 17 ASCII 'a's fail with `MFDLineTooLong` and no
transfer. -/
theorem set_mfd_text_validation_amended_witness :
    opt_result_err (X52Driver.set_mfd_text proDriver X52MFDLine.Line3
        (List.replicate 17 97)) = some ErrorId.MFDLineTooLong ∧
      opt_result_transfers (X52Driver.set_mfd_text proDriver X52MFDLine.Line3
        (List.replicate 17 97)) = [] :=
  (set_mfd_text_validation_amended proDriver X52MFDLine.Line3
    (List.replicate 17 97)).2 (by decide) (by decide)

/-- C6: for every bicolor LED and every bicolor status (on a Pro device),
`toggle_led_colored` issues exactly two transfers, both with index
`0xB8`, in channel order red then green; each value equals
`(channel_selector << 8) | status_bit`; the red and green selectors are
consecutive slots and the (red, green) status-bit pairs are exactly
off=(0,0), red=(1,0), green=(0,1), amber=(1,1), with no other outputs. -/
theorem toggle_led_colored_encoding (driver : X52Driver)
    (led : X52ColoredLed) (status : X52ColoredLedStatus)
    (hpro : driver.x52_type = Except.ok X52DeviceType.X52Pro) :
    driver.toggle_led_colored led status =
      (none,
        [{ index := LED_SET_COMMAND
         , value := ((map_colored_led_to_value led).1 <<< 8) |||
             (map_colored_led_status_to_value status).1 },
         { index := LED_SET_COMMAND
         , value := ((map_colored_led_to_value led).2 <<< 8) |||
             (map_colored_led_status_to_value status).2 }]) ∧
    (map_colored_led_to_value led).2 = (map_colored_led_to_value led).1 + 1 ∧
    (map_colored_led_status_to_value X52ColoredLedStatus.Off = (0, 0) ∧
      map_colored_led_status_to_value X52ColoredLedStatus.Red = (1, 0) ∧
      map_colored_led_status_to_value X52ColoredLedStatus.Green = (0, 1) ∧
      map_colored_led_status_to_value X52ColoredLedStatus.Amber = (1, 1)) ∧
    map_colored_led_status_to_value status ∈
      [(0, 0), (1, 0), (0, 1), (1, 1)] := by
  have hok : ensure_x52_is_pro driver = Except.ok () :=
    ensure_x52_is_pro_of_pro driver hpro
  refine ⟨?_, ?_, ⟨rfl, rfl, rfl, rfl⟩, ?_⟩
  · unfold X52Driver.toggle_led_colored
    rw [hok]
    cases led <;> cases status <;> decide
  · cases led <;> decide
  · cases status <;> decide

/-- C6 (witness): LED A set to amber on a Pro device. -/
theorem toggle_led_colored_encoding_witness :
    X52Driver.toggle_led_colored proDriver X52ColoredLed.A
        X52ColoredLedStatus.Amber =
      (none,
        [{ index := LED_SET_COMMAND
         , value := ((map_colored_led_to_value X52ColoredLed.A).1 <<< 8) |||
             (map_colored_led_status_to_value X52ColoredLedStatus.Amber).1 },
         { index := LED_SET_COMMAND
         , value := ((map_colored_led_to_value X52ColoredLed.A).2 <<< 8) |||
             (map_colored_led_status_to_value X52ColoredLedStatus.Amber).2 }]) :=
  (toggle_led_colored_encoding proDriver X52ColoredLed.A
    X52ColoredLedStatus.Amber rfl).1

/-- C7: every Pro-only operation (`toggle_led_on_off` and
`toggle_led_colored`) invoked on a device whose resolved variant is the
base X52 fails with `NotAPro`, the error message carries the device's bus
and address, and no transfer is attempted. -/
theorem pro_only_on_base_fails (driver : X52Driver)
    (hbase : driver.x52_type = Except.ok X52DeviceType.X52)
    (led : X52OnOffLed) (status : X52OnOffLedStatus)
    (cled : X52ColoredLed) (cstatus : X52ColoredLedStatus) :
    driver.toggle_led_on_off led status =
      (some (Error.new ErrorId.NotAPro
        ("The device at Bus " ++ pad3 driver.bus ++ " Device "
          ++ pad3 driver.address ++ " is not an X52 Pro")), []) ∧
    driver.toggle_led_colored cled cstatus =
      (some (Error.new ErrorId.NotAPro
        ("The device at Bus " ++ pad3 driver.bus ++ " Device "
          ++ pad3 driver.address ++ " is not an X52 Pro")), []) ∧
    result_err (driver.toggle_led_on_off led status) =
      some ErrorId.NotAPro ∧
    result_err (driver.toggle_led_colored cled cstatus) =
      some ErrorId.NotAPro := by
  have herr := ensure_x52_is_pro_of_base driver hbase
  refine ⟨?_, ?_, ?_, ?_⟩
  · unfold X52Driver.toggle_led_on_off
    rw [herr]
  · unfold X52Driver.toggle_led_colored
    rw [herr]
  · unfold result_err X52Driver.toggle_led_on_off
    rw [herr]
    rfl
  · unfold result_err X52Driver.toggle_led_colored
    rw [herr]
    rfl

/-- C7 (witness): the fire LED and LED A on a base-variant X52 at bus 1
address 2. -/
theorem pro_only_on_base_fails_witness :
    X52Driver.toggle_led_on_off baseDriver X52OnOffLed.Fire
        X52OnOffLedStatus.On =
      (some (Error.new ErrorId.NotAPro
        ("The device at Bus " ++ pad3 baseDriver.bus ++ " Device "
          ++ pad3 baseDriver.address ++ " is not an X52 Pro")), []) ∧
    result_err (X52Driver.toggle_led_colored baseDriver X52ColoredLed.A
        X52ColoredLedStatus.Red) = some ErrorId.NotAPro :=
  ⟨(pro_only_on_base_fails baseDriver rfl X52OnOffLed.Fire
      X52OnOffLedStatus.On X52ColoredLed.A X52ColoredLedStatus.Red).1,
   (pro_only_on_base_fails baseDriver rfl X52OnOffLed.Fire
      X52OnOffLedStatus.On X52ColoredLed.A X52ColoredLedStatus.Red).2.2.2⟩

/-- C8: for every day, month, 2-digit year and format, `set_date` issues
exactly two transfers, first index `0xC4` (day/month) then index `0xC8`
(year); DDMMYY packs value `(month<<8)|day` then `year`; MMDDYY packs
`(day<<8)|month` then `year`; YYMMDD packs `(month<<8)|year` in the first
transfer and `day` in the second (year) transfer.  The decode equations
confirm which field sits in which byte. -/
theorem set_date_encoding (driver : X52Driver) (day month year : Nat)
    (hd : day < 256) (hm : month < 256) (hy : year < 256) :
    driver.set_date day month year X52DateFormat.DDMMYY =
      (none,
        [{ index := SET_DAY_MONTH_COMMAND, value := (month <<< 8) ||| day },
         { index := SET_YEAR_COMMAND, value := year }]) ∧
    driver.set_date day month year X52DateFormat.MMDDYY =
      (none,
        [{ index := SET_DAY_MONTH_COMMAND, value := (day <<< 8) ||| month },
         { index := SET_YEAR_COMMAND, value := year }]) ∧
    driver.set_date day month year X52DateFormat.YYMMDD =
      (none,
        [{ index := SET_DAY_MONTH_COMMAND, value := (month <<< 8) ||| year },
         { index := SET_YEAR_COMMAND, value := day }]) ∧
    ((month <<< 8) ||| day) / 256 = month ∧
    ((month <<< 8) ||| day) % 256 = day ∧
    ((day <<< 8) ||| month) / 256 = day ∧
    ((day <<< 8) ||| month) % 256 = month ∧
    ((month <<< 8) ||| year) / 256 = month ∧
    ((month <<< 8) ||| year) % 256 = year := by
  refine ⟨rfl, rfl, rfl, ?_, ?_, ?_, ?_, ?_, ?_⟩
  · exact shiftLeft8_lor_div month day hd
  · exact shiftLeft8_lor_mod month day hd
  · exact shiftLeft8_lor_div day month hm
  · exact shiftLeft8_lor_mod day month hm
  · exact shiftLeft8_lor_div month year hy
  · exact shiftLeft8_lor_mod month year hy

/-- C8 (witness): 14 March (20)25 in each format. -/
theorem set_date_encoding_witness :
    X52Driver.set_date proDriver 14 3 25 X52DateFormat.YYMMDD =
      (none,
        [{ index := SET_DAY_MONTH_COMMAND, value := (3 <<< 8) ||| 25 },
         { index := SET_YEAR_COMMAND, value := 14 }]) ∧
    X52Driver.set_date proDriver 14 3 25 X52DateFormat.DDMMYY =
      (none,
        [{ index := SET_DAY_MONTH_COMMAND, value := (3 <<< 8) ||| 14 },
         { index := SET_YEAR_COMMAND, value := 25 }]) :=
  ⟨(set_date_encoding proDriver 14 3 25
      (by decide) (by decide) (by decide)).2.2.1,
   (set_date_encoding proDriver 14 3 25
      (by decide) (by decide) (by decide)).1⟩

/-- C9: equality of two device descriptors holds if and only if their
variants are equal; in the catalog, the two base-variant descriptors have
different product IDs yet compare equal, and descriptors of different
variants compare unequal regardless of their IDs; each descriptor still
reports its variant via `x52_type`. -/
theorem descriptor_equality_variant_based :
    (∀ a b : X52Descriptor,
      X52Descriptor.eq a b = true ↔ a.x52_type = b.x52_type) ∧
    (POSSIBLE_DESCRIPTORS.getD 0 defaultDescriptor).product ≠
      (POSSIBLE_DESCRIPTORS.getD 1 defaultDescriptor).product ∧
    X52Descriptor.eq (POSSIBLE_DESCRIPTORS.getD 0 defaultDescriptor)
      (POSSIBLE_DESCRIPTORS.getD 1 defaultDescriptor) = true ∧
    X52Descriptor.eq (POSSIBLE_DESCRIPTORS.getD 0 defaultDescriptor)
      (POSSIBLE_DESCRIPTORS.getD 2 defaultDescriptor) = false ∧
    X52Descriptor.eq (POSSIBLE_DESCRIPTORS.getD 1 defaultDescriptor)
      (POSSIBLE_DESCRIPTORS.getD 2 defaultDescriptor) = false ∧
    (POSSIBLE_DESCRIPTORS.getD 0 defaultDescriptor).x52_type =
      X52DeviceType.X52 ∧
    (POSSIBLE_DESCRIPTORS.getD 1 defaultDescriptor).x52_type =
      X52DeviceType.X52 ∧
    (POSSIBLE_DESCRIPTORS.getD 2 defaultDescriptor).x52_type =
      X52DeviceType.X52Pro := by
  refine ⟨?_, by decide, by decide, by decide, by decide,
    by decide, by decide, by decide⟩
  intro a b
  unfold X52Descriptor.eq
  cases ha : a.x52_type <;> cases hb : b.x52_type <;>
    simp [ha, hb] <;> decide

/-- C9 (witness): the variant-based equivalence applied to the first two
catalog entries (same variant, different product IDs). -/
theorem descriptor_equality_variant_based_witness :
    X52Descriptor.eq (POSSIBLE_DESCRIPTORS.getD 0 defaultDescriptor)
      (POSSIBLE_DESCRIPTORS.getD 1 defaultDescriptor) = true :=
  (descriptor_equality_variant_based.1
    (POSSIBLE_DESCRIPTORS.getD 0 defaultDescriptor)
    (POSSIBLE_DESCRIPTORS.getD 1 defaultDescriptor)).mpr rfl

/-- C10: the Pro-variant check is performed only by the two LED toggle
operations.  Every other public operation of the driver is independent of
the device's resolved variant (its result is the same for any two driver
states, in particular for a Base and a Pro device, given the same
arguments) and never returns `NotAPro`; the two LED toggles do return
`NotAPro` on a Base-variant device. -/
theorem variant_check_only_in_led_toggles :
    (∀ d1 d2 : X52Driver, ∀ line,
      d1.clear_mfd_line line = d2.clear_mfd_line line) ∧
    (∀ d1 d2 : X52Driver, ∀ line text,
      d1.set_mfd_text line text = d2.set_mfd_text line text) ∧
    (∀ d1 d2 : X52Driver, ∀ b,
      d1.set_led_brightness b = d2.set_led_brightness b) ∧
    (∀ d1 d2 : X52Driver, ∀ b,
      d1.set_mfd_brightness b = d2.set_mfd_brightness b) ∧
    (∀ d1 d2 : X52Driver, ∀ e,
      d1.set_shift_status e = d2.set_shift_status e) ∧
    (∀ d1 d2 : X52Driver, ∀ e,
      d1.set_blink_status e = d2.set_blink_status e) ∧
    (∀ d1 d2 : X52Driver, ∀ h m u,
      d1.set_clock_1 h m u = d2.set_clock_1 h m u) ∧
    (∀ d1 d2 : X52Driver, ∀ o u,
      d1.set_clock_2_offset o u = d2.set_clock_2_offset o u) ∧
    (∀ d1 d2 : X52Driver, ∀ o u,
      d1.set_clock_3_offset o u = d2.set_clock_3_offset o u) ∧
    (∀ d1 d2 : X52Driver, ∀ dd mm yy f,
      d1.set_date dd mm yy f = d2.set_date dd mm yy f) ∧
    (∀ d : X52Driver, ∀ line,
      result_err (d.clear_mfd_line line) ≠ some ErrorId.NotAPro) ∧
    (∀ d : X52Driver, ∀ line text,
      opt_result_err (d.set_mfd_text line text) ≠ some ErrorId.NotAPro) ∧
    (∀ d : X52Driver, ∀ b,
      result_err (d.set_led_brightness b) ≠ some ErrorId.NotAPro) ∧
    (∀ d : X52Driver, ∀ b,
      result_err (d.set_mfd_brightness b) ≠ some ErrorId.NotAPro) ∧
    (∀ d : X52Driver, ∀ e,
      result_err (d.set_shift_status e) ≠ some ErrorId.NotAPro) ∧
    (∀ d : X52Driver, ∀ e,
      result_err (d.set_blink_status e) ≠ some ErrorId.NotAPro) ∧
    (∀ d : X52Driver, ∀ h m u,
      result_err (d.set_clock_1 h m u) ≠ some ErrorId.NotAPro) ∧
    (∀ d : X52Driver, ∀ o u,
      result_err (d.set_clock_2_offset o u) ≠ some ErrorId.NotAPro) ∧
    (∀ d : X52Driver, ∀ o u,
      result_err (d.set_clock_3_offset o u) ≠ some ErrorId.NotAPro) ∧
    (∀ d : X52Driver, ∀ dd mm yy f,
      result_err (d.set_date dd mm yy f) ≠ some ErrorId.NotAPro) ∧
    (∀ d : X52Driver, ∀ led status,
      d.x52_type = Except.ok X52DeviceType.X52 →
      result_err (d.toggle_led_on_off led status) = some ErrorId.NotAPro) ∧
    (∀ d : X52Driver, ∀ led status,
      d.x52_type = Except.ok X52DeviceType.X52 →
      result_err (d.toggle_led_colored led status) = some ErrorId.NotAPro) := by
  refine ⟨fun a b line => rfl, fun a b line text => rfl,
    fun a b k => rfl, fun a b k => rfl, fun a b e => rfl,
    fun a b e => rfl, fun a b h m u => rfl, fun a b o u => rfl,
    fun a b o u => rfl, fun a b dd mm yy f => rfl,
    ?_, ?_, ?_, ?_, ?_, ?_, ?_, ?_, ?_, ?_, ?_, ?_⟩
  · intro d line
    simp [result_err, X52Driver.clear_mfd_line]
  · intro d line text
    unfold X52Driver.set_mfd_text
    split
    · simp [opt_result_err, result_err, Error.new]
    · split
      · simp [opt_result_err, result_err, Error.new]
      · split
        · simp [opt_result_err, result_err]
        · simp [opt_result_err]
  · intro d b
    simp [result_err, X52Driver.set_led_brightness]
  · intro d b
    simp [result_err, X52Driver.set_mfd_brightness]
  · intro d e
    simp [result_err, X52Driver.set_shift_status]
  · intro d e
    simp [result_err, X52Driver.set_blink_status]
  · intro d h m u
    simp [result_err, X52Driver.set_clock_1]
  · intro d o u
    unfold X52Driver.set_clock_2_offset
    split
    · simp [result_err, Error.new]
    · simp [result_err]
  · intro d o u
    unfold X52Driver.set_clock_3_offset
    split
    · simp [result_err, Error.new]
    · simp [result_err]
  · intro d dd mm yy f
    simp [result_err, X52Driver.set_date]
  · intro d led status hbase
    unfold result_err X52Driver.toggle_led_on_off
    rw [ensure_x52_is_pro_of_base d hbase]
    rfl
  · intro d led status hbase
    unfold result_err X52Driver.toggle_led_colored
    rw [ensure_x52_is_pro_of_base d hbase]
    rfl

/-- C10 (witness): on a Base-variant device, `set_clock_1` does not fail
with `NotAPro` (and is unaffected by the variant) while `toggle_led_on_off`
does fail with `NotAPro`. -/
theorem variant_check_only_in_led_toggles_witness :
    X52Driver.set_clock_1 baseDriver 12 30 true =
        X52Driver.set_clock_1 proDriver 12 30 true ∧
      result_err (X52Driver.set_clock_1 baseDriver 12 30 true) ≠
        some ErrorId.NotAPro ∧
      result_err (X52Driver.toggle_led_on_off baseDriver
          X52OnOffLed.Fire X52OnOffLedStatus.On) = some ErrorId.NotAPro := by
  obtain ⟨-, -, -, -, -, -, hclk, -, -, -, -, -, -, -, -, -, hnap, -, -, -,
    htog, -⟩ := variant_check_only_in_led_toggles
  exact ⟨hclk baseDriver proDriver 12 30 true, hnap baseDriver 12 30 true,
    htog baseDriver X52OnOffLed.Fire X52OnOffLedStatus.On rfl⟩
